import Mathlib

/-!
Shallow embedding of the d2r2/go-sht3x driver (SHT3x temperature/humidity
sensor, Go) for verifying its natural-language specification.

Modelling conventions:
* Go `uint16` values are `Nat` (overflow is noted with `% 2^16` where the
  source can overflow; all masked/shifted values below stay under `2^16`).
* `time.Duration` values are `Nat` nanoseconds; Go's `timeDur / 10` is
  `Nat` integer division, as in the source.
* The Go enums `MeasureRepeatability` and `PeriodicMeasure` are `int`-backed
  (`iota + 1`); they are embedded as `Nat` with the same numeric constants,
  so the Go zero value of a fresh handle is `0`, outside every enum case.
* The i2c transport is the excluded collaborator: each operation takes the
  transport's responses for the bus transactions it performs (write success
  or a bus error; CRC-validated block reads either deliver the decoded
  16-bit words or fail).  `readDataWithCRCCheck` is thus abstracted to a
  supplier of validated words: a NACK, I/O failure or CRC mismatch are all
  `BusErr` outcomes of one read transaction.
* Go `float32` arithmetic of the unit conversions is embedded over `ℚ`.
* Every state-touching operation returns its new `SHT3X` record explicitly,
  together with the list of command frames written to the bus and the number
  of block-read transactions performed, so that frame and cache claims can
  be stated.
-/

/-- Bus-level failure of a single transaction, as distinguished by the
driver: `nack` is the device-not-acknowledging condition the fetch retry
loop reacts to, `crc` a checksum mismatch raised by `readDataWithCRCCheck`,
`io` any other transport failure. -/
inductive BusErr where
  | nack
  | crc
  | io
deriving Repr

/-- Cancellation-context error (`ctx.Err()` in Go). -/
inductive CtxErr where
  | canceled
  | deadlineExceeded
deriving Repr

/-- Errors returned by `FetchUncompTemperatureAndHumidityWithContext`. -/
inductive FetchError where
  | noMeasurement
  | write (e : BusErr)
  | read (e : BusErr)
  | ctx (e : CtxErr)
deriving Repr

-- Command byte sequences (sensor-datasheet opcodes, 2 bytes each).

def CMD_SINGLE_MEASURE_HIGH : List Nat := [0x24, 0x00]
def CMD_SINGLE_MEASURE_MEDIUM : List Nat := [0x24, 0x0B]
def CMD_SINGLE_MEASURE_LOW : List Nat := [0x24, 0x16]

def CMD_PERIOD_MEASURE_05MPS_HIGH : List Nat := [0x20, 0x32]
def CMD_PERIOD_MEASURE_05MPS_MEDIUM : List Nat := [0x20, 0x24]
def CMD_PERIOD_MEASURE_05MPS_LOW : List Nat := [0x20, 0x2F]
def CMD_PERIOD_MEASURE_1MPS_HIGH : List Nat := [0x21, 0x30]
def CMD_PERIOD_MEASURE_1MPS_MEDIUM : List Nat := [0x21, 0x26]
def CMD_PERIOD_MEASURE_1MPS_LOW : List Nat := [0x21, 0x2D]
def CMD_PERIOD_MEASURE_2MPS_HIGH : List Nat := [0x22, 0x36]
def CMD_PERIOD_MEASURE_2MPS_MEDIUM : List Nat := [0x22, 0x20]
def CMD_PERIOD_MEASURE_2MPS_LOW : List Nat := [0x22, 0x2B]
def CMD_PERIOD_MEASURE_4MPS_HIGH : List Nat := [0x23, 0x34]
def CMD_PERIOD_MEASURE_4MPS_MEDIUM : List Nat := [0x23, 0x22]
def CMD_PERIOD_MEASURE_4MPS_LOW : List Nat := [0x23, 0x29]
def CMD_PERIOD_MEASURE_10MPS_HIGH : List Nat := [0x27, 0x37]
def CMD_PERIOD_MEASURE_10MPS_MEDIUM : List Nat := [0x27, 0x21]
def CMD_PERIOD_MEASURE_10MPS_LOW : List Nat := [0x27, 0x2A]

def CMD_ALERT_READ_HIGH_SET : List Nat := [0xE1, 0x1F]
def CMD_ALERT_READ_HIGH_CLEAR : List Nat := [0xE1, 0x14]
def CMD_ALERT_READ_LOW_CLEAR : List Nat := [0xE1, 0x09]
def CMD_ALERT_READ_LOW_SET : List Nat := [0xE1, 0x02]

def CMD_ENABLE_HEATER : List Nat := [0x30, 0x6D]
def CMD_DISABLE_HEATER : List Nat := [0x30, 0x66]

def CMD_READ_STATUS_REG : List Nat := [0xF3, 0x2D]

def CMD_PERIOD_FETCH : List Nat := [0xE0, 0x00]
def CMD_BREAK : List Nat := [0x30, 0x93]
def CMD_RESET : List Nat := [0x30, 0xA2]

-- `MeasureRepeatability` values (Go: `iota + 1`).
def RepeatabilityLow : Nat := 1
def RepeatabilityMedium : Nat := 2
def RepeatabilityHigh : Nat := 3

-- `PeriodicMeasure` values (Go: `iota + 1`).
def PeriodicHalfMPS : Nat := 1
def Periodic1MPS : Nat := 2
def Periodic2MPS : Nat := 3
def Periodic4MPS : Nat := 4
def Periodic10MPS : Nat := 5

/-- `HEATER_ENABLED` status-register flag. -/
def HEATER_ENABLED : Nat := 0x2000

/-- `PeriodicMeasure.GetWaitDuration`: pause between measures, in
nanoseconds (`time.Millisecond = 10^6 ns`); Go's uninitialised
`timeDur` default for out-of-range values is `0`. -/
def GetWaitDuration (period : Nat) : Nat :=
  if period = PeriodicHalfMPS then 2000 * 1000000
  else if period = Periodic1MPS then 1000 * 1000000
  else if period = Periodic2MPS then 500 * 1000000
  else if period = Periodic4MPS then 250 * 1000000
  else if period = Periodic10MPS then 100 * 1000000
  else 0

/-- The sensor handle: cached status word (nullable), last issued command
opcode (`nil` ≙ `none`), remembered cadence and resolution of the active
periodic session. -/
structure SHT3X where
  lastStatusReg : Option Nat
  lastCmd : Option (List Nat)
  lastPeriodic : Nat
  lastPrecision : Nat
deriving Repr

/-- Go `NewSHT3X`: fresh handle, all fields at their Go zero values
(`nil` pointer, `nil` slice, zero ints). -/
def NewSHT3X : SHT3X := ⟨none, none, 0, 0⟩

/-- Modelled from the spec: the repository's `round32` helper lives in a
utils file that is not under src/; spec §4.2 fixes its behaviour as
"round-half-away-from-zero to 2 decimal places for physical outputs". -/
def round2 (x : ℚ) : ℚ :=
  if 0 ≤ x then (⌊x * 100 + 1 / 2⌋ : ℚ) / 100
  else -((⌊-x * 100 + 1 / 2⌋ : ℚ) / 100)

/-- Go `uncompHumidityToRelativeHumidity`:
`float32(uh) * 100 / (0x10000 - 1)` rounded to 2 decimals
(float arithmetic embedded over `ℚ`). -/
def uncompHumidityToRelativeHumidity (uh : Nat) : ℚ :=
  round2 ((uh : ℚ) * 100 / (0x10000 - 1))

/-- Go `uncompTemperatureToCelsius`:
`float32(ut) * 175 / (0x10000 - 1) - 45` rounded to 2 decimals
(float arithmetic embedded over `ℚ`). -/
def uncompTemperatureToCelsius (ut : Nat) : ℚ :=
  round2 ((ut : ℚ) * 175 / (0x10000 - 1) - 45)

/-- Evaluation helper: `round2` at a nonnegative rational whose shifted
value is the fraction `n / d`, with `k` the integer quotient. -/
theorem round2_of_eq_div (x : ℚ) (n k : ℤ) (d : ℕ)
    (hx : 0 ≤ x) (h : x * 100 + 1 / 2 = (n : ℚ) / (d : ℚ))
    (hk : n / (d : ℤ) = k) : round2 x = (k : ℚ) / 100 := by
  rw [round2, if_pos hx, h, Rat.floor_intCast_div_natCast, hk]

/-- Result of a driver operation over the bus: the Go return value, the
updated handle, the command frames written, and how many block-read
transactions (`readDataWithCRCCheck` calls) were performed. -/
structure OpResult (α : Type) where
  res : Except BusErr α
  state : SHT3X
  wrote : List (List Nat)
  reads : Nat
deriving Repr

/-- Go `getPeriodicMeasurementCommand`: select the periodic-measurement
opcode from (cadence, resolution); the Go `var cmd []byte` stays `nil`
(`none`) when either value is outside its enum range. -/
def getPeriodicMeasurementCommand (period precision : Nat) : Option (List Nat) :=
  if period = PeriodicHalfMPS then
    if precision = RepeatabilityLow then some CMD_PERIOD_MEASURE_05MPS_LOW
    else if precision = RepeatabilityMedium then some CMD_PERIOD_MEASURE_05MPS_MEDIUM
    else if precision = RepeatabilityHigh then some CMD_PERIOD_MEASURE_05MPS_HIGH
    else none
  else if period = Periodic1MPS then
    if precision = RepeatabilityLow then some CMD_PERIOD_MEASURE_1MPS_LOW
    else if precision = RepeatabilityMedium then some CMD_PERIOD_MEASURE_1MPS_MEDIUM
    else if precision = RepeatabilityHigh then some CMD_PERIOD_MEASURE_1MPS_HIGH
    else none
  else if period = Periodic2MPS then
    if precision = RepeatabilityLow then some CMD_PERIOD_MEASURE_2MPS_LOW
    else if precision = RepeatabilityMedium then some CMD_PERIOD_MEASURE_2MPS_MEDIUM
    else if precision = RepeatabilityHigh then some CMD_PERIOD_MEASURE_2MPS_HIGH
    else none
  else if period = Periodic4MPS then
    if precision = RepeatabilityLow then some CMD_PERIOD_MEASURE_4MPS_LOW
    else if precision = RepeatabilityMedium then some CMD_PERIOD_MEASURE_4MPS_MEDIUM
    else if precision = RepeatabilityHigh then some CMD_PERIOD_MEASURE_4MPS_HIGH
    else none
  else if period = Periodic10MPS then
    if precision = RepeatabilityLow then some CMD_PERIOD_MEASURE_10MPS_LOW
    else if precision = RepeatabilityMedium then some CMD_PERIOD_MEASURE_10MPS_MEDIUM
    else if precision = RepeatabilityHigh then some CMD_PERIOD_MEASURE_10MPS_HIGH
    else none
  else none

/-- Go `ReadStatusReg`: if the cached status word is present return it
without touching the bus; otherwise issue the status-read opcode, read one
CRC-validated block, cache and return it.  `wrErr` is the transport's
response to the command write, `rd` to the block read. -/
def ReadStatusReg (v : SHT3X) (wrErr : Option BusErr) (rd : Except BusErr Nat) :
    OpResult Nat :=
  match v.lastStatusReg with
  | some reg => ⟨.ok reg, v, [], 0⟩
  | none =>
    match wrErr with
    | some e => ⟨.error e, v, [CMD_READ_STATUS_REG], 0⟩
    | none =>
      match rd with
      | .error e => ⟨.error e, v, [CMD_READ_STATUS_REG], 1⟩
      | .ok reg => ⟨.ok reg, { v with lastStatusReg := some reg }, [CMD_READ_STATUS_REG], 1⟩

/-- Go `SetHeaterStatus`: issue the enable/disable-heater opcode and on
success record it as the last issued command (the status cache is not
touched by this function in the source). -/
def SetHeaterStatus (v : SHT3X) (wrErr : Option BusErr) (enableHeater : Bool) :
    OpResult Unit :=
  let cmd := if enableHeater then CMD_ENABLE_HEATER else CMD_DISABLE_HEATER
  match wrErr with
  | some e => ⟨.error e, v, [cmd], 0⟩
  | none => ⟨.ok (), { v with lastCmd := some cmd }, [cmd], 0⟩

/-- Go `GetHeaterStatus`: clear the status cache (`v.lastStatusReg = nil`),
then read the status register and test the `HEATER_ENABLED` bit. -/
def GetHeaterStatus (v : SHT3X) (wrErr : Option BusErr) (rd : Except BusErr Nat) :
    OpResult Bool :=
  let r := ReadStatusReg { v with lastStatusReg := none } wrErr rd
  match r.res with
  | .error e => ⟨.error e, r.state, r.wrote, r.reads⟩
  | .ok ur => ⟨.ok (decide (ur &&& HEATER_ENABLED ≠ 0)), r.state, r.wrote, r.reads⟩

/-- Go `initiateMeasure`: write the measurement command, on success record
it as the last issued command, then sleep the resolution's conversion time
(the sleep itself is not modelled; it mutates no state). -/
def initiateMeasure (v : SHT3X) (wrErr : Option BusErr) (cmd : Option (List Nat))
    (_precision : Nat) : OpResult Unit :=
  match wrErr with
  | some e => ⟨.error e, v, [cmd.getD []], 0⟩
  | none => ⟨.ok (), { v with lastCmd := cmd }, [cmd.getD []], 0⟩

/-- Go `ReadUncompTemperatureAndHumidity`: select the single-shot opcode
from the resolution, initiate the measurement, then read two CRC-validated
blocks (temperature code, humidity code). -/
def ReadUncompTemperatureAndHumidity (v : SHT3X) (wrErr : Option BusErr)
    (precision : Nat) (rd : Except BusErr (Nat × Nat)) : OpResult (Nat × Nat) :=
  let cmd : Option (List Nat) :=
    if precision = RepeatabilityLow then some CMD_SINGLE_MEASURE_LOW
    else if precision = RepeatabilityMedium then some CMD_SINGLE_MEASURE_MEDIUM
    else if precision = RepeatabilityHigh then some CMD_SINGLE_MEASURE_HIGH
    else none
  let r := initiateMeasure v wrErr cmd precision
  match r.res with
  | .error e => ⟨.error e, r.state, r.wrote, r.reads⟩
  | .ok _ =>
    match rd with
    | .error e => ⟨.error e, r.state, r.wrote, r.reads + 1⟩
    | .ok p => ⟨.ok p, r.state, r.wrote, r.reads + 1⟩

/-- Go `ReadTemperatureAndRelativeHumidity`: single-shot read of the raw
codes followed by conversion to Celsius and percent relative humidity. -/
def ReadTemperatureAndRelativeHumidity (v : SHT3X) (wrErr : Option BusErr)
    (precision : Nat) (rd : Except BusErr (Nat × Nat)) : OpResult (ℚ × ℚ) :=
  let r := ReadUncompTemperatureAndHumidity v wrErr precision rd
  match r.res with
  | .error e => ⟨.error e, r.state, r.wrote, r.reads⟩
  | .ok (ut, urh) =>
    ⟨.ok (uncompTemperatureToCelsius ut, uncompHumidityToRelativeHumidity urh),
      r.state, r.wrote, r.reads⟩

/-- Go `StartPeriodicTemperatureAndHumidityMeasure`: issue the periodic
opcode for (cadence, resolution) via `initiateMeasure`, and on success
record the cadence and resolution as the active session descriptor. -/
def StartPeriodicTemperatureAndHumidityMeasure (v : SHT3X) (wrErr : Option BusErr)
    (period precision : Nat) : OpResult Unit :=
  let cmd := getPeriodicMeasurementCommand period precision
  let r := initiateMeasure v wrErr cmd precision
  match r.res with
  | .error e => ⟨.error e, r.state, r.wrote, r.reads⟩
  | .ok _ =>
    ⟨.ok (), { r.state with lastPeriodic := period, lastPrecision := precision },
      r.wrote, r.reads⟩

/-- Go `Break`: issue the break opcode unconditionally (no prior-state
validation) and on success record it as the last issued command. -/
def Break (v : SHT3X) (wrErr : Option BusErr) : OpResult Unit :=
  match wrErr with
  | some e => ⟨.error e, v, [CMD_BREAK], 0⟩
  | none => ⟨.ok (), { v with lastCmd := some CMD_BREAK }, [CMD_BREAK], 0⟩

/-- Outcome of `FetchUncompTemperatureAndHumidityWithContext`: Go return
value, handle after the call, command frames written, number of block-read
attempts performed, and the list of completed waits (each in ns, in
order). -/
structure FetchOutcome where
  result : Except FetchError (Nat × Nat)
  state : SHT3X
  wrote : List (List Nat)
  reads : Nat
  waits : List Nat
deriving Repr

/-- Go retry loop of `FetchUncompTemperatureAndHumidityWithContext`
(`for retryCount >= 0 { ... }`), embedded by recursion on `retryCount`.
`readAt a` is the transport's response to the `a`-th block-read attempt;
`cancelAt a` tells whether the cancellation context is observed fired in
the `select` following a failed attempt `a` (Go `ctx.Done()`); `ctxE` is
the value of `ctx.Err()` then.  Returns (result, total attempts made,
completed waits in order); a cancelled wait contributes no wait entry,
matching the aborted `time.After`.  The division of the wait by 10 after
the first retry only (`if first { timeDur = timeDur / 10 }`) is Go integer
division of nanoseconds. -/
def fetchLoop (readAt : Nat → Except BusErr (Nat × Nat)) (cancelAt : Nat → Bool)
    (ctxE : CtxErr) :
    Nat → Nat → Bool → Nat → Except FetchError (Nat × Nat) × Nat × List Nat
  | retryCount, timeDur, first, attempt =>
    match readAt attempt with
    | .ok p => (.ok p, attempt + 1, [])
    | .error e =>
      match retryCount with
      | 0 => (.error (.read e), attempt + 1, [])
      | rc + 1 =>
        if cancelAt attempt then (.error (.ctx ctxE), attempt + 1, [])
        else
          let rest := fetchLoop readAt cancelAt ctxE rc
            (if first then timeDur / 10 else timeDur) false (attempt + 1)
          (rest.1, rest.2.1, timeDur :: rest.2.2)

/-- Go `FetchUncompTemperatureAndHumidityWithContext`: validate that the
opcode implied by the remembered (cadence, resolution) is non-nil and
equal to the last issued command; then issue the periodic-fetch opcode and
run the retry loop with `retryCount = 5`, initial wait
`lastPeriodic.GetWaitDuration()` and `first = true`.  The Go condition
`cmd == nil || !reflect.DeepEqual(cmd, v.lastCmd)` is
`cmd = none ∨ cmd ≠ v.lastCmd` on `Option` values (`DeepEqual` of a
non-nil slice against `nil` is false).  No field of `v` is assigned in the
source, so the returned state is `v` in every branch. -/
def FetchUncompTemperatureAndHumidityWithContext (v : SHT3X)
    (wrErr : Option BusErr) (readAt : Nat → Except BusErr (Nat × Nat))
    (cancelAt : Nat → Bool) (ctxE : CtxErr) : FetchOutcome :=
  let cmd := getPeriodicMeasurementCommand v.lastPeriodic v.lastPrecision
  if cmd = none ∨ cmd ≠ v.lastCmd then
    ⟨.error .noMeasurement, v, [], 0, []⟩
  else
    match wrErr with
    | some e => ⟨.error (.write e), v, [CMD_PERIOD_FETCH], 0, []⟩
    | none =>
      let r := fetchLoop readAt cancelAt ctxE 5
        (GetWaitDuration v.lastPeriodic) true 0
      ⟨r.1, v, [CMD_PERIOD_FETCH], r.2.1, r.2.2⟩

/-- Go `readAlertData`: issue the given alert-threshold read opcode,
record it as the last command, read one CRC-validated word `w`, split it
as humidity code `w &&& 0xFE00` and temperature code
`(w &&& 0x01FF) <<< 7` (Go `data[0] & 0x01FF << 7`: `&` and `<<` share
precedence and associate left), and convert both codes to physical
units. -/
def readAlertData (v : SHT3X) (wrErr : Option BusErr) (cmd : List Nat)
    (rd : Except BusErr Nat) : OpResult (ℚ × ℚ) :=
  match wrErr with
  | some e => ⟨.error e, v, [cmd], 0⟩
  | none =>
    let v1 := { v with lastCmd := some cmd }
    match rd with
    | .error e => ⟨.error e, v1, [cmd], 1⟩
    | .ok w =>
      let uh := w &&& 0xFE00
      let ut := (w &&& 0x01FF) <<< 7
      ⟨.ok (uncompTemperatureToCelsius ut, uncompHumidityToRelativeHumidity uh),
        v1, [cmd], 1⟩

-- ------------------------------------------------------------------
-- Shared helper lemmas
-- ------------------------------------------------------------------

/-- Helper: a failed session validation makes the continuous fetch return
the no-measurement error at once, with no bus traffic and an unchanged
handle. -/
theorem fetch_invalid_session (v : SHT3X) (wrErr : Option BusErr)
    (readAt : Nat → Except BusErr (Nat × Nat)) (cancelAt : Nat → Bool) (ctxE : CtxErr)
    (h : getPeriodicMeasurementCommand v.lastPeriodic v.lastPrecision = none ∨
      getPeriodicMeasurementCommand v.lastPeriodic v.lastPrecision ≠ v.lastCmd) :
    FetchUncompTemperatureAndHumidityWithContext v wrErr readAt cancelAt ctxE =
      ⟨.error .noMeasurement, v, [], 0, []⟩ := by
  simp only [FetchUncompTemperatureAndHumidityWithContext]
  rw [if_pos h]

/-- Helper: the command table never maps a (cadence, resolution) pair to
the break opcode. -/
theorem getPeriodicMeasurementCommand_ne_break (period precision : Nat) :
    getPeriodicMeasurementCommand period precision ≠ some CMD_BREAK := by
  unfold getPeriodicMeasurementCommand
  split_ifs <;> decide

/-- Helper: the fetch validation passes under a matching active session,
and the call then issues the periodic-fetch opcode and runs the retry
loop. -/
theorem fetch_valid_session (v : SHT3X) (c : List Nat)
    (readAt : Nat → Except BusErr (Nat × Nat)) (cancelAt : Nat → Bool) (ctxE : CtxErr)
    (h1 : getPeriodicMeasurementCommand v.lastPeriodic v.lastPrecision = some c)
    (h2 : v.lastCmd = some c) :
    FetchUncompTemperatureAndHumidityWithContext v none readAt cancelAt ctxE =
      ⟨(fetchLoop readAt cancelAt ctxE 5 (GetWaitDuration v.lastPeriodic) true 0).1,
        v, [CMD_PERIOD_FETCH],
        (fetchLoop readAt cancelAt ctxE 5 (GetWaitDuration v.lastPeriodic) true 0).2.1,
        (fetchLoop readAt cancelAt ctxE 5 (GetWaitDuration v.lastPeriodic) true 0).2.2⟩ := by
  simp only [FetchUncompTemperatureAndHumidityWithContext]
  rw [if_neg (by rw [h1, h2]; simp)]

-- ------------------------------------------------------------------
-- Claim theorems
-- ------------------------------------------------------------------

/-- C1: if the periodic-measurement opcode implied by the handle's
remembered (cadence, resolution) pair is nil or differs from the last
opcode actually issued to the device, the continuous fetch returns the
no-measurement-initiated error without issuing the periodic-fetch opcode
(no bus write, no read attempt). -/
theorem c1_fetch_without_matching_start_fails (v : SHT3X) (wrErr : Option BusErr)
    (readAt : Nat → Except BusErr (Nat × Nat)) (cancelAt : Nat → Bool) (ctxE : CtxErr)
    (h : getPeriodicMeasurementCommand v.lastPeriodic v.lastPrecision = none ∨
      getPeriodicMeasurementCommand v.lastPeriodic v.lastPrecision ≠ v.lastCmd) :
    (FetchUncompTemperatureAndHumidityWithContext v wrErr readAt cancelAt ctxE).result
        = .error .noMeasurement ∧
    (FetchUncompTemperatureAndHumidityWithContext v wrErr readAt cancelAt ctxE).wrote
        = [] ∧
    (FetchUncompTemperatureAndHumidityWithContext v wrErr readAt cancelAt ctxE).reads
        = 0 := by
  rw [fetch_invalid_session v wrErr readAt cancelAt ctxE h]
  exact ⟨rfl, rfl, rfl⟩

/-- C1 witness: a freshly created handle (no preceding start) fails the
fetch this way: its zero-valued cadence/resolution imply a nil opcode. -/
theorem c1_fetch_without_matching_start_fails_witness :
    (FetchUncompTemperatureAndHumidityWithContext NewSHT3X none
        (fun _ => .error .nack) (fun _ => false) .canceled).result
        = .error .noMeasurement ∧
    (FetchUncompTemperatureAndHumidityWithContext NewSHT3X none
        (fun _ => .error .nack) (fun _ => false) .canceled).wrote = [] ∧
    (FetchUncompTemperatureAndHumidityWithContext NewSHT3X none
        (fun _ => .error .nack) (fun _ => false) .canceled).reads = 0 :=
  c1_fetch_without_matching_start_fails NewSHT3X none
    (fun _ => .error .nack) (fun _ => false) .canceled (Or.inl (by decide))

/-- C2: with an active matching session, no cancellation, and a transport
whose data-read always fails with the not-acknowledged error, the
continuous fetch performs exactly 6 read attempts (the initial attempt
plus 5 retries) and returns the underlying read error. -/
theorem c2_fetch_always_nack_six_attempts (v : SHT3X) (c : List Nat) (e : BusErr)
    (ctxE : CtxErr)
    (h1 : getPeriodicMeasurementCommand v.lastPeriodic v.lastPrecision = some c)
    (h2 : v.lastCmd = some c) :
    (FetchUncompTemperatureAndHumidityWithContext v none
        (fun _ => .error e) (fun _ => false) ctxE).result = .error (.read e) ∧
    (FetchUncompTemperatureAndHumidityWithContext v none
        (fun _ => .error e) (fun _ => false) ctxE).reads = 6 := by
  rw [fetch_valid_session v c _ _ ctxE h1 h2]
  simp [fetchLoop]

/-- C2 witness: concrete active 1-MPS/High session against an
always-NACKing transport. -/
theorem c2_fetch_always_nack_six_attempts_witness :
    (FetchUncompTemperatureAndHumidityWithContext
        ⟨none, some CMD_PERIOD_MEASURE_1MPS_HIGH, Periodic1MPS, RepeatabilityHigh⟩
        none (fun _ => .error .nack) (fun _ => false) .canceled).result
        = .error (.read .nack) ∧
    (FetchUncompTemperatureAndHumidityWithContext
        ⟨none, some CMD_PERIOD_MEASURE_1MPS_HIGH, Periodic1MPS, RepeatabilityHigh⟩
        none (fun _ => .error .nack) (fun _ => false) .canceled).reads = 6 :=
  c2_fetch_always_nack_six_attempts
    ⟨none, some CMD_PERIOD_MEASURE_1MPS_HIGH, Periodic1MPS, RepeatabilityHigh⟩
    CMD_PERIOD_MEASURE_1MPS_HIGH .nack .canceled (by decide) rfl

/-- C3: with an active matching session and a transport failing the first
4 read attempts and succeeding on the 5th, the fetch succeeds with the
5th attempt's data after 5 attempts; the completed waits are the full
cadence interval followed by three tenth-of-cadence intervals, so the
total waited duration is one full interval plus three tenths. -/
theorem c3_fetch_retry_wait_pattern (v : SHT3X) (c : List Nat) (e : BusErr)
    (ut uh : Nat) (ctxE : CtxErr)
    (h1 : getPeriodicMeasurementCommand v.lastPeriodic v.lastPrecision = some c)
    (h2 : v.lastCmd = some c) :
    (FetchUncompTemperatureAndHumidityWithContext v none
        (fun a => if a < 4 then .error e else .ok (ut, uh))
        (fun _ => false) ctxE).result = .ok (ut, uh) ∧
    (FetchUncompTemperatureAndHumidityWithContext v none
        (fun a => if a < 4 then .error e else .ok (ut, uh))
        (fun _ => false) ctxE).reads = 5 ∧
    (FetchUncompTemperatureAndHumidityWithContext v none
        (fun a => if a < 4 then .error e else .ok (ut, uh))
        (fun _ => false) ctxE).waits =
      [GetWaitDuration v.lastPeriodic, GetWaitDuration v.lastPeriodic / 10,
        GetWaitDuration v.lastPeriodic / 10, GetWaitDuration v.lastPeriodic / 10] ∧
    (FetchUncompTemperatureAndHumidityWithContext v none
        (fun a => if a < 4 then .error e else .ok (ut, uh))
        (fun _ => false) ctxE).waits.sum =
      GetWaitDuration v.lastPeriodic + 3 * (GetWaitDuration v.lastPeriodic / 10) := by
  rw [fetch_valid_session v c _ _ ctxE h1 h2]
  refine ⟨by simp [fetchLoop], by simp [fetchLoop], by simp [fetchLoop], ?_⟩
  simp [fetchLoop]
  ring

/-- C3 witness: concrete active 0.5-MPS/Low session; transport NACKs four
times then delivers codes (100, 200); total wait is 2 s + 3 × 0.2 s. -/
theorem c3_fetch_retry_wait_pattern_witness :
    (FetchUncompTemperatureAndHumidityWithContext
        ⟨none, some CMD_PERIOD_MEASURE_05MPS_LOW, PeriodicHalfMPS, RepeatabilityLow⟩
        none (fun a => if a < 4 then .error .nack else .ok (100, 200))
        (fun _ => false) .canceled).result = .ok (100, 200) ∧
    (FetchUncompTemperatureAndHumidityWithContext
        ⟨none, some CMD_PERIOD_MEASURE_05MPS_LOW, PeriodicHalfMPS, RepeatabilityLow⟩
        none (fun a => if a < 4 then .error .nack else .ok (100, 200))
        (fun _ => false) .canceled).reads = 5 ∧
    (FetchUncompTemperatureAndHumidityWithContext
        ⟨none, some CMD_PERIOD_MEASURE_05MPS_LOW, PeriodicHalfMPS, RepeatabilityLow⟩
        none (fun a => if a < 4 then .error .nack else .ok (100, 200))
        (fun _ => false) .canceled).waits =
      [GetWaitDuration PeriodicHalfMPS, GetWaitDuration PeriodicHalfMPS / 10,
        GetWaitDuration PeriodicHalfMPS / 10, GetWaitDuration PeriodicHalfMPS / 10] ∧
    (FetchUncompTemperatureAndHumidityWithContext
        ⟨none, some CMD_PERIOD_MEASURE_05MPS_LOW, PeriodicHalfMPS, RepeatabilityLow⟩
        none (fun a => if a < 4 then .error .nack else .ok (100, 200))
        (fun _ => false) .canceled).waits.sum =
      GetWaitDuration PeriodicHalfMPS + 3 * (GetWaitDuration PeriodicHalfMPS / 10) :=
  c3_fetch_retry_wait_pattern
    ⟨none, some CMD_PERIOD_MEASURE_05MPS_LOW, PeriodicHalfMPS, RepeatabilityLow⟩
    CMD_PERIOD_MEASURE_05MPS_LOW .nack 100 200 .canceled (by decide) rfl

/-- C6: if the cancellation context fires while the retry loop is waiting
(it fires from wait `w` onward, with the transport not ready throughout),
the fetch aborts the wait and returns the context's cancellation error —
not the not-acknowledged read error — and performs no read attempt after
the cancellation is observed: exactly `w + 1` attempts happen. -/
theorem c6_cancellation_aborts_fetch_wait (v : SHT3X) (c : List Nat) (e : BusErr)
    (w : Nat) (ctxE : CtxErr) (hw : w ≤ 4)
    (h1 : getPeriodicMeasurementCommand v.lastPeriodic v.lastPrecision = some c)
    (h2 : v.lastCmd = some c) :
    (FetchUncompTemperatureAndHumidityWithContext v none
        (fun _ => .error e) (fun a => decide (w ≤ a)) ctxE).result
        = .error (.ctx ctxE) ∧
    (FetchUncompTemperatureAndHumidityWithContext v none
        (fun _ => .error e) (fun a => decide (w ≤ a)) ctxE).reads = w + 1 := by
  rw [fetch_valid_session v c _ _ ctxE h1 h2]
  interval_cases w <;> simp [fetchLoop]

/-- C6 witness: active 1-MPS/Medium session; the context fires during the
second wait, so exactly 2 read attempts happen and `ctx.Err()` is
returned. -/
theorem c6_cancellation_aborts_fetch_wait_witness : 1 ≤ 4 ∧
    ((FetchUncompTemperatureAndHumidityWithContext
        ⟨none, some CMD_PERIOD_MEASURE_1MPS_MEDIUM, Periodic1MPS, RepeatabilityMedium⟩
        none (fun _ => .error .nack) (fun a => decide (1 ≤ a)) .deadlineExceeded).result
        = .error (.ctx .deadlineExceeded) ∧
    (FetchUncompTemperatureAndHumidityWithContext
        ⟨none, some CMD_PERIOD_MEASURE_1MPS_MEDIUM, Periodic1MPS, RepeatabilityMedium⟩
        none (fun _ => .error .nack) (fun a => decide (1 ≤ a)) .deadlineExceeded).reads
        = 1 + 1) :=
  ⟨by decide, c6_cancellation_aborts_fetch_wait
    ⟨none, some CMD_PERIOD_MEASURE_1MPS_MEDIUM, Periodic1MPS, RepeatabilityMedium⟩
    CMD_PERIOD_MEASURE_1MPS_MEDIUM .nack 1 .deadlineExceeded (by decide) (by decide) rfl⟩

/-- C7: a successful `Break` records the break opcode as the last issued
command (and `Break` writes the break opcode unconditionally, validating
nothing); afterwards — and for as long as the last issued opcode remains
the break opcode, which never equals any periodic-measurement opcode —
every continuous fetch fails the active-session validation with the
no-measurement error, leaves the handle unchanged, and issues no
periodic-fetch opcode, until a new periodic start succeeds. -/
theorem c7_break_invalidates_fetch (v u : SHT3X) (wrErr wrErr2 : Option BusErr)
    (readAt : Nat → Except BusErr (Nat × Nat)) (cancelAt : Nat → Bool) (ctxE : CtxErr)
    (hu : u.lastCmd = some CMD_BREAK) :
    (Break v none).state.lastCmd = some CMD_BREAK ∧
    (Break v wrErr).wrote = [CMD_BREAK] ∧
    (FetchUncompTemperatureAndHumidityWithContext u wrErr2 readAt cancelAt ctxE).result
        = .error .noMeasurement ∧
    (FetchUncompTemperatureAndHumidityWithContext u wrErr2 readAt cancelAt ctxE).wrote
        = [] ∧
    (FetchUncompTemperatureAndHumidityWithContext u wrErr2 readAt cancelAt ctxE).state
        = u := by
  have hne : getPeriodicMeasurementCommand u.lastPeriodic u.lastPrecision = none ∨
      getPeriodicMeasurementCommand u.lastPeriodic u.lastPrecision ≠ u.lastCmd := by
    rcases hc : getPeriodicMeasurementCommand u.lastPeriodic u.lastPrecision with _ | l
    · exact Or.inl rfl
    · refine Or.inr ?_
      rw [hu]
      intro hl
      exact getPeriodicMeasurementCommand_ne_break u.lastPeriodic u.lastPrecision
        (hc.trans hl)
  rw [fetch_invalid_session u wrErr2 readAt cancelAt ctxE hne]
  refine ⟨rfl, ?_, rfl, rfl, rfl⟩
  cases wrErr <;> rfl

/-- C7 witness: breaking out of an active 2-MPS/High session yields a
handle whose subsequent fetch fails the validation. -/
theorem c7_break_invalidates_fetch_witness :
    ((Break ⟨none, some CMD_PERIOD_MEASURE_2MPS_HIGH, Periodic2MPS, RepeatabilityHigh⟩
        none).state.lastCmd = some CMD_BREAK) ∧
    ((Break NewSHT3X none).state.lastCmd = some CMD_BREAK ∧
    (Break NewSHT3X none).wrote = [CMD_BREAK] ∧
    (FetchUncompTemperatureAndHumidityWithContext
        (Break ⟨none, some CMD_PERIOD_MEASURE_2MPS_HIGH, Periodic2MPS,
          RepeatabilityHigh⟩ none).state
        none (fun _ => .ok (7, 8)) (fun _ => false) .canceled).result
        = .error .noMeasurement ∧
    (FetchUncompTemperatureAndHumidityWithContext
        (Break ⟨none, some CMD_PERIOD_MEASURE_2MPS_HIGH, Periodic2MPS,
          RepeatabilityHigh⟩ none).state
        none (fun _ => .ok (7, 8)) (fun _ => false) .canceled).wrote = [] ∧
    (FetchUncompTemperatureAndHumidityWithContext
        (Break ⟨none, some CMD_PERIOD_MEASURE_2MPS_HIGH, Periodic2MPS,
          RepeatabilityHigh⟩ none).state
        none (fun _ => .ok (7, 8)) (fun _ => false) .canceled).state
        = (Break ⟨none, some CMD_PERIOD_MEASURE_2MPS_HIGH, Periodic2MPS,
          RepeatabilityHigh⟩ none).state) :=
  ⟨rfl, c7_break_invalidates_fetch NewSHT3X
    (Break ⟨none, some CMD_PERIOD_MEASURE_2MPS_HIGH, Periodic2MPS, RepeatabilityHigh⟩
      none).state
    none none (fun _ => .ok (7, 8)) (fun _ => false) .canceled rfl⟩

/-- C10: `FetchUncompTemperatureAndHumidityWithContext` never modifies the
handle's session descriptor fields (`lastCmd`, `lastPeriodic`,
`lastPrecision`) — nor any other field — whether it succeeds, exhausts its
retry budget, is cancelled, or fails validation; a failed fetch can thus
be retried against the same session. -/
theorem c10_fetch_preserves_session_descriptor (v : SHT3X) (wrErr : Option BusErr)
    (readAt : Nat → Except BusErr (Nat × Nat)) (cancelAt : Nat → Bool) (ctxE : CtxErr) :
    (FetchUncompTemperatureAndHumidityWithContext v wrErr readAt cancelAt ctxE).state.lastCmd
        = v.lastCmd ∧
    (FetchUncompTemperatureAndHumidityWithContext v wrErr readAt cancelAt ctxE).state.lastPeriodic
        = v.lastPeriodic ∧
    (FetchUncompTemperatureAndHumidityWithContext v wrErr readAt cancelAt ctxE).state.lastPrecision
        = v.lastPrecision := by
  have hstate : (FetchUncompTemperatureAndHumidityWithContext v wrErr readAt
      cancelAt ctxE).state = v := by
    simp only [FetchUncompTemperatureAndHumidityWithContext]
    split_ifs
    · rfl
    · cases wrErr <;> rfl
  rw [hstate]
  exact ⟨rfl, rfl, rfl⟩

-- ------------------------------------------------------------------
-- Status-cache behaviour (C4)
-- ------------------------------------------------------------------

/-- C4 counterexample: with a populated status cache (`0x2000`), a
successful heater toggle leaves the cache in place, and the next
`ReadStatusReg` performs no bus transaction at all (no write, no read):
it returns the stale cached word even though the device would now report
`0`.  This refutes the claim that state-mutating operations invalidate
the cached status word. -/
theorem c4_heater_cache_counterexample :
    (SetHeaterStatus ⟨some 0x2000, none, 0, 0⟩ none true).state.lastStatusReg
        = some 0x2000 ∧
    (ReadStatusReg (SetHeaterStatus ⟨some 0x2000, none, 0, 0⟩ none true).state
        none (.ok 0)).wrote = [] ∧
    (ReadStatusReg (SetHeaterStatus ⟨some 0x2000, none, 0, 0⟩ none true).state
        none (.ok 0)).reads = 0 ∧
    (ReadStatusReg (SetHeaterStatus ⟨some 0x2000, none, 0, 0⟩ none true).state
        none (.ok 0)).res = .ok 0x2000 :=
  ⟨rfl, rfl, rfl, rfl⟩

/-- C4 (amended): the state-mutating operations (`SetHeaterStatus`,
`initiateMeasure`) leave the cached status word untouched, so a bare
`ReadStatusReg` after them may serve the stale cache; fresh reads are
instead guaranteed by the accessor predicates such as `GetHeaterStatus`,
which clear the cache before calling `ReadStatusReg` and therefore always
issue the status-read opcode on the bus. -/
theorem c4_mutators_keep_cache_accessors_refresh (v : SHT3X)
    (wrErr wrErr2 wrErr3 : Option BusErr) (b : Bool) (cmd : Option (List Nat))
    (p : Nat) (rd : Except BusErr Nat) :
    (SetHeaterStatus v wrErr b).state.lastStatusReg = v.lastStatusReg ∧
    (initiateMeasure v wrErr2 cmd p).state.lastStatusReg = v.lastStatusReg ∧
    (GetHeaterStatus v wrErr3 rd).wrote = [CMD_READ_STATUS_REG] := by
  refine ⟨?_, ?_, ?_⟩
  · cases wrErr <;> rfl
  · cases wrErr2 <;> rfl
  · cases wrErr3 <;> cases rd <;> rfl

-- ------------------------------------------------------------------
-- Single-shot conversion values (C5)
-- ------------------------------------------------------------------

/-- Helper: single-shot Low-repeatability read against a transport
delivering the CRC-valid codes (0x6000, 0x4000) converts them to
20.63 °C and 25.00 %RH. -/
theorem readTempRH_low_codes_value (v : SHT3X) :
    (ReadTemperatureAndRelativeHumidity v none RepeatabilityLow
        (.ok (0x6000, 0x4000))).res = .ok (2063 / 100, 25) := by
  have ht : uncompTemperatureToCelsius 0x6000 = ((2063 : ℤ) : ℚ) / 100 := by
    unfold uncompTemperatureToCelsius
    exact round2_of_eq_div _ 18027369 2063 8738 (by norm_num)
      (by push_cast; norm_num) (by decide)
  have hh : uncompHumidityToRelativeHumidity 0x4000 = ((2500 : ℤ) : ℚ) / 100 := by
    unfold uncompHumidityToRelativeHumidity
    exact round2_of_eq_div _ 65549107 2500 26214 (by norm_num)
      (by push_cast; norm_num) (by decide)
  have hres : (ReadTemperatureAndRelativeHumidity v none RepeatabilityLow
      (.ok (0x6000, 0x4000))).res =
      .ok (uncompTemperatureToCelsius 0x6000, uncompHumidityToRelativeHumidity 0x4000) :=
    rfl
  rw [hres, ht, hh]
  norm_num

/-- C5 counterexample: the single-shot Low read on codes (0x6000, 0x4000)
does not return (27.87 °C, 25.10 %) — the linear formulas give
20.63 °C and 25.00 % at those codes. -/
theorem c5_claimed_values_refuted :
    (ReadTemperatureAndRelativeHumidity NewSHT3X none RepeatabilityLow
        (.ok (0x6000, 0x4000))).res ≠ .ok (2787 / 100, 2510 / 100) := by
  rw [readTempRH_low_codes_value]
  intro h
  rw [Except.ok.injEq, Prod.mk.injEq] at h
  have := h.1
  norm_num at this

/-- C5 (amended): a single-shot `ReadTemperatureAndRelativeHumidity` with
Low repeatability, on a transport returning the raw codes
(0x6000, 0x4000) with correct checksums, returns temperature 20.63 °C and
relative humidity 25.00 % (each rounded to 2 decimal places). -/
theorem c5_single_shot_low_conversion (v : SHT3X) :
    (ReadTemperatureAndRelativeHumidity v none RepeatabilityLow
        (.ok (0x6000, 0x4000))).res = .ok (2063 / 100, 25) ∧
    (ReadTemperatureAndRelativeHumidity v none RepeatabilityLow
        (.ok (0x6000, 0x4000))).wrote = [CMD_SINGLE_MEASURE_LOW] :=
  ⟨readTempRH_low_codes_value v, rfl⟩

-- ------------------------------------------------------------------
-- Alert-threshold decoding (C8)
-- ------------------------------------------------------------------

/-- C8: for every 16-bit word `w` read back from an alert-threshold
register, the alert read path decodes the humidity code as
`w &&& 0xFE00` — the top 7 bits of `w` with the lower 9 bits zeroed
(witnessed by the code being `0 mod 2^9`) — and the temperature code as
`(w &&& 0x01FF) <<< 7` — the low 9 bits of `w` shifted left by 7, i.e.
`(w mod 2^9) * 2^7` — and converts both codes to physical units with the
standard conversion formulas. -/
theorem c8_alert_read_decode (v : SHT3X) (cmd : List Nat) (w : Nat) (_hw : w < 2 ^ 16) :
    (readAlertData v none cmd (.ok w)).res =
      .ok (uncompTemperatureToCelsius ((w &&& 0x01FF) <<< 7),
        uncompHumidityToRelativeHumidity (w &&& 0xFE00)) ∧
    (w &&& 0xFE00) % 2 ^ 9 = 0 ∧
    (w &&& 0x01FF) <<< 7 = (w % 2 ^ 9) * 2 ^ 7 := by
  refine ⟨rfl, ?_, ?_⟩
  · have h : (w &&& 0xFE00) % 2 ^ 9 = (w &&& 0xFE00) &&& (2 ^ 9 - 1) :=
      (Nat.and_pow_two_sub_one_eq_mod _ 9).symm
    rw [h, Nat.and_assoc, show (0xFE00 &&& (2 ^ 9 - 1) : Nat) = 0 from rfl,
      Nat.and_zero]
  · have h : (0x01FF : Nat) = 2 ^ 9 - 1 := rfl
    rw [h, Nat.and_pow_two_sub_one_eq_mod, Nat.shiftLeft_eq]

/-- C8 witness: decoding the word 0xA655 read back from the HIGH SET
register. -/
theorem c8_alert_read_decode_witness : 0xA655 < 2 ^ 16 ∧
    ((readAlertData NewSHT3X none CMD_ALERT_READ_HIGH_SET (.ok 0xA655)).res =
      .ok (uncompTemperatureToCelsius ((0xA655 &&& 0x01FF) <<< 7),
        uncompHumidityToRelativeHumidity (0xA655 &&& 0xFE00)) ∧
    (0xA655 &&& 0xFE00) % 2 ^ 9 = 0 ∧
    (0xA655 &&& 0x01FF) <<< 7 = (0xA655 % 2 ^ 9) * 2 ^ 7) :=
  ⟨by decide, c8_alert_read_decode NewSHT3X CMD_ALERT_READ_HIGH_SET 0xA655 (by decide)⟩

-- ------------------------------------------------------------------
-- Conversion range bounds (C9)
-- ------------------------------------------------------------------

/-- Helper: `round2` never exceeds a nonnegative hundredth bound that the
argument respects. -/
theorem round2_le_of_le (x : ℚ) (m : ℤ) (hm : 0 ≤ m) (h : x ≤ (m : ℚ) / 100) :
    round2 x ≤ (m : ℚ) / 100 := by
  unfold round2
  split_ifs with hx
  · have hfloor : ⌊x * 100 + 1 / 2⌋ ≤ m := by
      rw [Int.floor_le_iff]
      rw [le_div_iff₀ (by norm_num : (0:ℚ) < 100)] at h
      linarith
    rw [div_le_div_iff_of_pos_right (by norm_num : (0:ℚ) < 100)]
    exact_mod_cast hfloor
  · have h0 : (0:ℚ) ≤ (⌊-x * 100 + 1 / 2⌋ : ℚ) / 100 := by
      have : (0:ℤ) ≤ ⌊-x * 100 + 1 / 2⌋ := Int.floor_nonneg.mpr (by push_neg at hx; linarith)
      positivity
    have hm' : (0:ℚ) ≤ (m : ℚ) / 100 := by positivity
    linarith

/-- Helper: `round2` never falls below a nonpositive hundredth bound that
the argument respects. -/
theorem le_round2_of_le (x : ℚ) (m : ℤ) (hm : m ≤ 0) (h : (m : ℚ) / 100 ≤ x) :
    (m : ℚ) / 100 ≤ round2 x := by
  unfold round2
  split_ifs with hx
  · have h0 : (0:ℚ) ≤ (⌊x * 100 + 1 / 2⌋ : ℚ) / 100 := by
      have : (0:ℤ) ≤ ⌊x * 100 + 1 / 2⌋ := Int.floor_nonneg.mpr (by linarith)
      positivity
    have hm' : (m : ℚ) / 100 ≤ 0 := by
      apply div_nonpos_of_nonpos_of_nonneg _ (by norm_num)
      exact_mod_cast hm
    linarith
  · have hfloor : ⌊-x * 100 + 1 / 2⌋ ≤ -m := by
      rw [Int.floor_le_iff]
      push_cast
      rw [div_le_iff₀ (by norm_num : (0:ℚ) < 100)] at h
      linarith
    have hc : (⌊-x * 100 + 1 / 2⌋ : ℚ) ≤ ((-m : ℤ) : ℚ) := by exact_mod_cast hfloor
    push_cast at hc
    linarith

/-- C9: for every 16-bit unsigned input code, `uncompTemperatureToCelsius`
returns a value in the closed interval [-45, 130] and
`uncompHumidityToRelativeHumidity` returns a value in the closed interval
[0, 100]; the conversions cannot produce a value outside the physical
range of the sensor. -/
theorem c9_conversion_ranges (ut uh : Nat) (h1 : ut < 65536) (h2 : uh < 65536) :
    -45 ≤ uncompTemperatureToCelsius ut ∧ uncompTemperatureToCelsius ut ≤ 130 ∧
    0 ≤ uncompHumidityToRelativeHumidity uh ∧
    uncompHumidityToRelativeHumidity uh ≤ 100 := by
  have hut : (ut : ℚ) ≤ 65535 := by
    have h : ut ≤ 65535 := by omega
    exact_mod_cast h
  have huh : (uh : ℚ) ≤ 65535 := by
    have h : uh ≤ 65535 := by omega
    exact_mod_cast h
  have ht1 : (-45 : ℚ) ≤ (ut : ℚ) * 175 / (0x10000 - 1) - 45 := by
    have h : (0:ℚ) ≤ (ut : ℚ) * 175 / (0x10000 - 1) := by positivity
    linarith
  have ht2 : (ut : ℚ) * 175 / (0x10000 - 1) - 45 ≤ 130 := by
    have h : (ut : ℚ) * 175 / (0x10000 - 1) ≤ 175 := by
      rw [div_le_iff₀ (by norm_num : (0:ℚ) < 0x10000 - 1)]
      linarith
    linarith
  have hh1 : (0 : ℚ) ≤ (uh : ℚ) * 100 / (0x10000 - 1) := by positivity
  have hh2 : (uh : ℚ) * 100 / (0x10000 - 1) ≤ 100 := by
    rw [div_le_iff₀ (by norm_num : (0:ℚ) < 0x10000 - 1)]
    linarith
  refine ⟨?_, ?_, ?_, ?_⟩
  · have h := le_round2_of_le ((ut : ℚ) * 175 / (0x10000 - 1) - 45) (-4500)
      (by norm_num) (by rw [show (((-4500 : ℤ) : ℚ)) / 100 = -45 by norm_num]; exact ht1)
    rw [show (((-4500 : ℤ) : ℚ)) / 100 = -45 by norm_num] at h
    exact h
  · have h := round2_le_of_le ((ut : ℚ) * 175 / (0x10000 - 1) - 45) 13000
      (by norm_num) (by rw [show (((13000 : ℤ) : ℚ)) / 100 = 130 by norm_num]; exact ht2)
    rw [show (((13000 : ℤ) : ℚ)) / 100 = 130 by norm_num] at h
    exact h
  · have h := le_round2_of_le ((uh : ℚ) * 100 / (0x10000 - 1)) 0
      (by norm_num) (by rw [show (((0 : ℤ) : ℚ)) / 100 = 0 by norm_num]; exact hh1)
    rw [show (((0 : ℤ) : ℚ)) / 100 = 0 by norm_num] at h
    exact h
  · have h := round2_le_of_le ((uh : ℚ) * 100 / (0x10000 - 1)) 10000
      (by norm_num) (by rw [show (((10000 : ℤ) : ℚ)) / 100 = 100 by norm_num]; exact hh2)
    rw [show (((10000 : ℤ) : ℚ)) / 100 = 100 by norm_num] at h
    exact h

/-- C9 witness: the bounds at the extreme 16-bit codes 0 and 65535
(applying the range theorem at codes 0 and 0). -/
theorem c9_conversion_ranges_witness : (0 : Nat) < 65536 ∧
    (-45 ≤ uncompTemperatureToCelsius 0 ∧ uncompTemperatureToCelsius 0 ≤ 130 ∧
    0 ≤ uncompHumidityToRelativeHumidity 0 ∧
    uncompHumidityToRelativeHumidity 0 ≤ 100) :=
  ⟨by decide, c9_conversion_ranges 0 0 (by decide) (by decide)⟩
